import Mathlib

/-!
Formal model of the Bengaluru weather dashboard script (`src/VATAVARANA.py`).

The script is a linear pipeline: load (or fetch) a CSV of daily weather
records into a pandas dataframe, derive `year`/`month` columns, filter to a
user-selected year/month, aggregate, classify, display.  We embed the data
model and every computation the pipeline performs on it.  Missing numeric
observations (pandas `NaN`) are modelled as `none`; pandas comparison and
aggregation semantics on missing values (comparisons are false, sums skip,
means of an all-missing column are `NaN`) are modelled explicitly.
-/

/-- Calendar date as carried by the `date` column (`YYYY-MM-DD`). -/
structure Date where
  year : Nat
  month : Nat
  day : Nat
deriving DecidableEq

/-- One daily weather record: the six numeric columns of the CSV.
Each numeric field is `Option ℚ`; `none` models a missing (`NaN`) value. -/
structure DailyRecord where
  date : Date
  temp_max : Option ℚ
  temp_min : Option ℚ
  temp_mean : Option ℚ
  precipitation : Option ℚ
  rain : Option ℚ
  wind_speed_max : Option ℚ
deriving DecidableEq

/-- A dataframe row: the loaded record plus the derived `year`/`month`
columns, absent (`none`) until the script assigns them (lines 87 to 88). -/
structure Row where
  daily : DailyRecord
  year : Option Nat
  month : Option Nat
deriving DecidableEq

/-- A freshly loaded row, before the `year`/`month` column assignment. -/
def toRow (r : DailyRecord) : Row := ⟨r, none, none⟩

/-- The in-memory dataframe right after `df = load_data()` (line 86). -/
def loadedFrame (rs : List DailyRecord) : List Row := rs.map toRow

/-- Lines 87 to 88: `df["year"] = df["date"].dt.year` and
`df["month"] = df["date"].dt.month`, mutating the loaded frame in place. -/
def addYearMonth (df : List Row) : List Row :=
  df.map (fun r => { r with year := some r.daily.date.year, month := some r.daily.date.month })

/-- Line 103: `filtered = df[(df["year"] == year) & (df["month"] == month)]`. -/
def filterMonth (y m : Nat) (df : List Row) : List Row :=
  df.filter (fun r => decide (r.year = some y) && decide (r.month = some m))

/-- pandas `Series.sum()` with its default `skipna=True`: a running sum in
which a missing value contributes nothing; an all-missing column sums to 0. -/
def colSum (vs : List (Option ℚ)) : ℚ :=
  vs.foldl (fun a v => a + v.getD 0) 0

/-- pandas `Series.mean()`: the mean of the non-missing entries, and `NaN`
(here `none`) when every entry is missing. -/
def colMean (vs : List (Option ℚ)) : Option ℚ :=
  let xs := vs.filterMap id
  if xs.length = 0 then none else some (xs.sum / (xs.length : ℚ))

/-- pandas elementwise `v > 0` on a column entry: false on a missing value. -/
def gtZero (v : Option ℚ) : Bool :=
  match v with
  | none => false
  | some x => decide (0 < x)

/-- pandas elementwise `v == 0` on a column entry: false on a missing value. -/
def eqZero (v : Option ℚ) : Bool :=
  match v with
  | none => false
  | some x => decide (x = 0)

/-- Python `v >= b` where `v` may be `NaN`: any comparison with `NaN` is
false. -/
def geB (v : Option ℚ) (b : ℚ) : Bool :=
  match v with
  | none => false
  | some x => decide (b ≤ x)

/-- Predicate used in hypotheses: the entry is present and nonnegative. -/
def presentNonneg (v : Option ℚ) : Bool :=
  match v with
  | none => false
  | some x => decide (0 ≤ x)

/-- Predicate used in hypotheses: the entry is missing or nonnegative. -/
def nullOrNonneg (v : Option ℚ) : Bool :=
  match v with
  | none => true
  | some x => decide (0 ≤ x)

/-- Line 112: `total_rain = filtered["rain"].sum()`. -/
def total_rain (sel : List Row) : ℚ :=
  colSum (sel.map (fun r => r.daily.rain))

/-- Line 113: `rainy_days = (filtered["rain"] > 0).sum()`. -/
def rainy_days (sel : List Row) : Nat :=
  sel.countP (fun r => gtZero r.daily.rain)

/-- Line 114: `avg_temp = filtered["temp_mean"].mean()`. -/
def avg_temp (sel : List Row) : Option ℚ :=
  colMean (sel.map (fun r => r.daily.temp_mean))

/-- Line 115: `avg_max_temp = filtered["temp_max"].mean()`. -/
def avg_max_temp (sel : List Row) : Option ℚ :=
  colMean (sel.map (fun r => r.daily.temp_max))

/-- Lines 120 to 125: the dominant-weather branching, with Python `NaN`
comparison semantics for `avg_max_temp >= 32`.  The label strings are
exactly the ones in the script, emoji prefix included. -/
def dominant_weather (sel : List Row) : String :=
  if 0 < total_rain sel ∧ 3 ≤ rainy_days sel then "🌧️ Rain Dominant"
  else if rainy_days sel = 0 ∧ geB (avg_max_temp sel) 32 = true then "☀️ Heat Dominant"
  else "🌤️ Mixed Weather"

/-- Lines 130 to 137: the rain-intensity branching. -/
def rain_intensity (sel : List Row) : String :=
  if total_rain sel = 0 then "No Rain"
  else if total_rain sel ≤ 50 then "Light Rain"
  else if total_rain sel ≤ 150 then "Moderate Rain"
  else "Heavy Rain"

/-- Line 184: `dry = (filtered["rain"] == 0).sum()`. -/
def dry (sel : List Row) : Nat :=
  sel.countP (fun r => eqZero r.daily.rain)

/-- The monthly summary the script displays (lines 142 to 149). -/
structure Summary where
  total_rain : ℚ
  rainy_days : Nat
  avg_temp : Option ℚ
  avg_max_temp : Option ℚ
  dominant_weather : String
  rain_intensity : String
deriving DecidableEq

/-- Outcome of one recomputation: either the warning-and-stop path of
lines 105 to 107, carrying no statistics at all, or the computed summary. -/
inductive MonthResult where
  | noData : MonthResult
  | ok : Summary → MonthResult
deriving DecidableEq

/-- The statistics block (lines 112 to 137) packaged as one value. -/
def mkSummary (sel : List Row) : Summary :=
  ⟨total_rain sel, rainy_days sel, avg_temp sel, avg_max_temp sel,
    dominant_weather sel, rain_intensity sel⟩

/-- Lines 103 to 149 as a function of the frame and the selected year and
month: filter, stop with a warning when empty, else compute the summary. -/
def analyzeMonth (df : List Row) (y m : Nat) : MonthResult :=
  let filtered := filterMonth y m df
  if filtered.isEmpty then MonthResult.noData else MonthResult.ok (mkSummary filtered)

/-- The whole per-session pipeline: load, derive `year`/`month`, filter and
summarize.  The final in-memory frame is returned alongside the result so
that any mutation of the loaded collection is visible in the model. -/
def runSession (records : List DailyRecord) (y m : Nat) : List Row × MonthResult :=
  let df := addYearMonth (loadedFrame records)
  (df, analyzeMonth df y m)

/-- Spec wording of the dominant-weather rules (spec section 4.3), with the
bare label strings the spec asserts: first match wins, in this order. -/
def specDominantLabel (total : ℚ) (rainy : Nat) (avgMax : Option ℚ) : String :=
  if 0 < total ∧ 3 ≤ rainy then "Rain Dominant"
  else if rainy = 0 ∧ geB avgMax 32 = true then "Heat Dominant"
  else "Mixed Weather"

/-- The dominant-weather rules as in the spec, amended only in the label
strings, which the script prefixes with an emoji. -/
def specDominantLabelAmended (total : ℚ) (rainy : Nat) (avgMax : Option ℚ) : String :=
  if 0 < total ∧ 3 ≤ rainy then "🌧️ Rain Dominant"
  else if rainy = 0 ∧ geB avgMax 32 = true then "☀️ Heat Dominant"
  else "🌤️ Mixed Weather"

/-- Spec wording of the rain-intensity rules (spec section 4.3): first
match wins, inclusive upper bounds. -/
def specRainIntensity (total : ℚ) : String :=
  if total = 0 then "No Rain"
  else if total ≤ 50 then "Light Rain"
  else if total ≤ 150 then "Moderate Rain"
  else "Heavy Rain"

/-- Spec wording: `total_rain` is the sum of the `rain` field over the
selection (a missing value contributes nothing to a pandas sum). -/
def specTotalRain (sel : List Row) : ℚ :=
  ((sel.map (fun r => r.daily.rain)).filterMap id).sum

/-- Spec wording: `rainy_days` is the count of records with `rain > 0`. -/
def specRainyDays (sel : List Row) : Nat :=
  (sel.filter (fun r => gtZero r.daily.rain)).length

/-- Spec wording: the arithmetic mean of the non-null entries of a column,
undefined (`none`) when there are none. -/
def specMean (vs : List (Option ℚ)) : Option ℚ :=
  if (vs.filterMap id) = [] then none
  else some ((vs.filterMap id).sum / ((vs.filterMap id).length : ℚ))

/-!
The cache file.  Line 72 (`df.to_csv(CSV_FILE, index=False)`) writes the
dataframe as a comma-delimited file with a header row; lines 82 to 83
(`pd.read_csv`, `pd.to_datetime`) read it back.  The serialization itself
is library code, so the cell format is modelled from the spec: the file is
a list of rows of cells, the header names every column, dates are ISO
`YYYY-MM-DD` strings, numbers are plain decimal strings and a missing
value is an empty cell.  Numeric cells are rendered with two decimal
digits, the precision the round-trip contract promises.
-/

/-- Numeric value of a decimal digit character. -/
def charToDigit (c : Char) : Nat := c.toNat - 48

/-- Decimal digits of `n`, least significant first; the first argument is
structural fuel (any bound on `n` works, since `n / 10` shrinks). -/
def digitsFuel : Nat → Nat → List Nat
  | 0, _ => []
  | _ + 1, 0 => []
  | fuel + 1, n + 1 => ((n + 1) % 10) :: digitsFuel fuel ((n + 1) / 10)

/-- Decimal digits of `n`, least significant first. -/
def digitsRev (n : Nat) : List Nat := digitsFuel n n

/-- Decimal digits of `n`, most significant first, as characters. -/
def natToChars (n : Nat) : List Char :=
  if n = 0 then ['0'] else (digitsRev n).reverse.map Nat.digitChar

/-- Value of a digit-character list, most significant first. -/
def digitsVal (cs : List Char) : Nat :=
  cs.foldl (fun a c => 10 * a + charToDigit c) 0

/-- Parse an unsigned decimal integer: at least one character, all digits. -/
def parseNatChars (cs : List Char) : Option Nat :=
  if cs.isEmpty then none
  else if cs.all Char.isDigit then some (digitsVal cs) else none

/-- `n` as exactly two digit characters, zero padded (for `n < 100`). -/
def pad2 (n : Nat) : List Char :=
  [Nat.digitChar (n / 10 % 10), Nat.digitChar (n % 10)]

/-- `n` as exactly four digit characters, zero padded (for `n < 10000`). -/
def pad4 (n : Nat) : List Char :=
  [Nat.digitChar (n / 1000 % 10), Nat.digitChar (n / 100 % 10),
    Nat.digitChar (n / 10 % 10), Nat.digitChar (n % 10)]

/-- Value of two digit characters, most significant first. -/
def val2 (a b : Char) : Nat := 10 * charToDigit a + charToDigit b

/-- Value of four digit characters, most significant first. -/
def val4 (a b c d : Char) : Nat :=
  1000 * charToDigit a + 100 * charToDigit b + 10 * charToDigit c + charToDigit d

/-- Modelled from the spec: the `date` cell as an ISO `YYYY-MM-DD` string
(the format `to_csv` writes for the date column). -/
def renderDate (d : Date) : String :=
  ⟨pad4 d.year ++ '-' :: (pad2 d.month ++ '-' :: pad2 d.day)⟩

/-- Modelled from the spec: parsing of an ISO `YYYY-MM-DD` date cell (the
work `pd.to_datetime` does on the loaded column). -/
def parseDate (s : String) : Option Date :=
  match s.data with
  | [y1, y2, y3, y4, h1, m1, m2, h2, d1, d2] =>
    if h1 = '-' ∧ h2 = '-' ∧ [y1, y2, y3, y4, m1, m2, d1, d2].all Char.isDigit
    then some ⟨val4 y1 y2 y3 y4, val2 m1 m2, val2 d1 d2⟩
    else none
  | _ => none

/-- Modelled from the spec: a numeric cell with two decimal digits, with a
leading minus sign for negative values. -/
def ratToChars (q : ℚ) : List Char :=
  let k : Int := (100 * q).num
  let n : Nat := k.natAbs
  (if k < 0 then ['-'] else []) ++ natToChars (n / 100) ++ '.' :: pad2 (n % 100)

/-- Parse the unsigned part of a numeric cell: an integer part, a dot, and
exactly two fractional digits. -/
def parseUnsignedRat (cs : List Char) : Option ℚ :=
  match cs.dropWhile (fun c => c ≠ '.') with
  | c :: fp =>
    if c = '.' ∧ fp.length = 2 then
      match parseNatChars (cs.takeWhile (fun c => c ≠ '.')), parseNatChars fp with
      | some a, some b => some ((a : ℚ) + (b : ℚ) / 100)
      | _, _ => none
    else none
  | [] => none

/-- Modelled from the spec: parsing of a numeric cell (the work `read_csv`
does on a number), with an optional leading minus sign. -/
def parseRatChars (cs : List Char) : Option ℚ :=
  match cs with
  | [] => none
  | c :: rest =>
    if c = '-' then (parseUnsignedRat rest).map (fun q => -q)
    else parseUnsignedRat (c :: rest)

/-- Modelled from the spec: a numeric cell; a missing value is written as
an empty cell, as `to_csv` writes `NaN`. -/
def renderCell (v : Option ℚ) : String :=
  match v with
  | none => ""
  | some q => ⟨ratToChars q⟩

/-- Modelled from the spec: reading a numeric cell back; an empty cell
loads as a missing value, as `read_csv` yields `NaN`. -/
def parseCell (s : String) : Option (Option ℚ) :=
  if s = "" then some none else (parseRatChars s.data).map some

/-- The header row `to_csv` writes (spec section 6 cache file format). -/
def headerRow : List String :=
  ["date", "temp_max", "temp_min", "temp_mean", "precipitation", "rain", "wind_speed_max"]

/-- Modelled from the spec: one record as one CSV row of cells. -/
def renderRecord (r : DailyRecord) : List String :=
  [renderDate r.date, renderCell r.temp_max, renderCell r.temp_min,
    renderCell r.temp_mean, renderCell r.precipitation, renderCell r.rain,
    renderCell r.wind_speed_max]

/-- Modelled from the spec: one CSV row of cells parsed back to a record. -/
def parseRecord (cells : List String) : Option DailyRecord :=
  match cells with
  | [ds, c1, c2, c3, c4, c5, c6] =>
    match parseDate ds, parseCell c1, parseCell c2, parseCell c3,
        parseCell c4, parseCell c5, parseCell c6 with
    | some d, some v1, some v2, some v3, some v4, some v5, some v6 =>
      some ⟨d, v1, v2, v3, v4, v5, v6⟩
    | _, _, _, _, _, _, _ => none
  | _ => none

/-- Modelled from the spec: `df.to_csv(CSV_FILE, index=False)` (line 72),
the cache file as a header row followed by one row per record. -/
def saveFile (rs : List DailyRecord) : List (List String) :=
  headerRow :: rs.map renderRecord

/-- Modelled from the spec: `pd.read_csv` plus `pd.to_datetime` (lines 82
to 83), consuming the header row and parsing every body row. -/
def loadFile (rows : List (List String)) : Option (List DailyRecord) :=
  match rows with
  | [] => none
  | h :: body => if h = headerRow then body.mapM parseRecord else none

/-- The value has at most two decimal digits: `100 * q` is an integer. -/
def twoDecimal (q : ℚ) : Bool := (100 * q).den = 1

/-- A cell value the two-decimal cache format represents exactly. -/
def goodCell (v : Option ℚ) : Bool :=
  match v with
  | none => true
  | some q => twoDecimal q

/-- A date the fixed-width ISO format represents. -/
def goodDate (d : Date) : Bool :=
  decide (d.year < 10000 ∧ d.month < 100 ∧ d.day < 100)

/-- A record the cache format represents exactly. -/
def goodRecord (r : DailyRecord) : Bool :=
  goodDate r.date && goodCell r.temp_max && goodCell r.temp_min &&
    goodCell r.temp_mean && goodCell r.precipitation && goodCell r.rain &&
    goodCell r.wind_speed_max

/-!
Concrete sample data used by the closed theorems below.
-/

/-- Sample date: 2020-01-15. -/
def janDate : Date := ⟨2020, 1, 15⟩

/-- A record with only a rain observation on the given date. -/
def mkRainRec (d : Date) (v : Option ℚ) : DailyRecord :=
  ⟨d, none, none, none, none, v, none⟩

/-- A filtered row with only a rain observation. -/
def mkRainRow (d : Date) (v : Option ℚ) : Row :=
  ⟨mkRainRec d v, some d.year, some d.month⟩

/-- A one-row selection whose total rain is the given value. -/
def selWithRain (q : ℚ) : List Row := [mkRainRow janDate (some q)]

/-- A selection of three rainy January 2020 days, 80 mm in total. -/
def rainySel : List Row :=
  [mkRainRow janDate (some 10), mkRainRow ⟨2020, 1, 16⟩ (some 30),
    mkRainRow ⟨2020, 1, 17⟩ (some 40)]

/-- A selection containing one record whose rain value is missing. -/
def nullRainSel : List Row :=
  filterMonth 2020 1 (addYearMonth (loadedFrame [mkRainRec janDate none]))

/-- Two records exercising the cache format: full observations, a missing
value, and a negative two-decimal temperature. -/
def csvSample : List DailyRecord :=
  [⟨⟨2014, 1, 1⟩, some (253 / 10), some (181 / 10), some (217 / 10),
      some 0, some 0, some (1234 / 100)⟩,
    ⟨⟨2014, 1, 2⟩, none, some (-25 / 100), none, some (3 / 10),
      some (3 / 10), none⟩]

/-!
Helper lemmas about the column aggregations.
-/

theorem colSum_foldl (vs : List (Option ℚ)) :
    ∀ a : ℚ, vs.foldl (fun x v => x + v.getD 0) a = a + colSum vs := by
  induction vs with
  | nil => intro a; simp [colSum]
  | cons v vs ih =>
    intro a
    have h1 : List.foldl (fun x v => x + v.getD 0) a (v :: vs) =
        List.foldl (fun x v => x + v.getD 0) (a + v.getD 0) vs := rfl
    have h2 : colSum (v :: vs) =
        List.foldl (fun x v => x + v.getD 0) (0 + v.getD 0) vs := rfl
    rw [h1, h2, ih, ih]
    ring

theorem colSum_cons (v : Option ℚ) (vs : List (Option ℚ)) :
    colSum (v :: vs) = v.getD 0 + colSum vs := by
  show List.foldl _ _ (v :: vs) = _
  rw [List.foldl_cons, colSum_foldl]
  ring

theorem colSum_eq_sum (vs : List (Option ℚ)) : colSum vs = (vs.filterMap id).sum := by
  induction vs with
  | nil => rfl
  | cons v vs ih =>
    cases v with
    | none => simpa [colSum_cons] using ih
    | some x => simp [colSum_cons, ih]

theorem colSum_nonpos (vs : List (Option ℚ)) (h : ∀ v ∈ vs, v.getD 0 ≤ 0) :
    colSum vs ≤ 0 := by
  induction vs with
  | nil => simp [colSum]
  | cons v vs ih =>
    rw [colSum_cons]
    have h1 : v.getD 0 ≤ 0 := h v (List.mem_cons_self v vs)
    have h2 : colSum vs ≤ 0 := ih (fun u hu => h u (List.mem_cons_of_mem _ hu))
    linarith

theorem colSum_nonneg (vs : List (Option ℚ)) (h : ∀ v ∈ vs, 0 ≤ v.getD 0) :
    0 ≤ colSum vs := by
  induction vs with
  | nil => simp [colSum]
  | cons v vs ih =>
    rw [colSum_cons]
    have h1 : 0 ≤ v.getD 0 := h v (List.mem_cons_self v vs)
    have h2 : 0 ≤ colSum vs := ih (fun u hu => h u (List.mem_cons_of_mem _ hu))
    linarith

theorem colSum_pos (vs : List (Option ℚ)) (h : ∀ v ∈ vs, 0 ≤ v.getD 0)
    (v₀ : Option ℚ) (hmem : v₀ ∈ vs) (hpos : 0 < v₀.getD 0) : 0 < colSum vs := by
  induction vs with
  | nil => cases hmem
  | cons v vs ih =>
    rw [colSum_cons]
    rcases List.mem_cons.mp hmem with h0 | h0
    · subst h0
      have h2 : 0 ≤ colSum vs :=
        colSum_nonneg vs (fun u hu => h u (List.mem_cons_of_mem _ hu))
      linarith
    · have h1 : 0 ≤ v.getD 0 := h v (List.mem_cons_self v vs)
      have h2 : 0 < colSum vs := ih (fun u hu => h u (List.mem_cons_of_mem _ hu)) h0
      linarith

theorem total_rain_nonpos_of_no_rainy_day (sel : List Row) (h : rainy_days sel = 0) :
    total_rain sel ≤ 0 := by
  unfold total_rain
  apply colSum_nonpos
  intro v hv
  rw [List.mem_map] at hv
  obtain ⟨r, hr, rfl⟩ := hv
  have hng := List.countP_eq_zero.mp h r hr
  cases hrain : r.daily.rain with
  | none => simp
  | some x =>
    simp only [gtZero, hrain, decide_eq_true_eq] at hng
    simp [hrain]
    linarith [not_lt.mp hng]

theorem total_rain_selWithRain (q : ℚ) : total_rain (selWithRain q) = q := by
  simp [total_rain, selWithRain, mkRainRow, mkRainRec, colSum]

/-!
Claim C1: the dominant-weather rules and labels.
-/

/-- C1 counterexample: a selection for which the first rule fires
(`total_rain > 0` and `rainy_days >= 3`) but the computed label is not the
string "Rain Dominant" the claim asserts: the script prefixes an emoji. -/
theorem dominant_weather_emoji_counterexample :
    0 < total_rain rainySel ∧ 3 ≤ rainy_days rainySel ∧
      dominant_weather rainySel ≠ "Rain Dominant" := by
  have ht : total_rain rainySel = 80 := by
    simp [total_rain, rainySel, mkRainRow, mkRainRec, colSum]
    norm_num
  have hr : rainy_days rainySel = 3 := by
    norm_num [rainy_days, rainySel, mkRainRow, mkRainRec, List.countP_cons,
      List.countP_nil, gtZero]
  refine ⟨by rw [ht]; norm_num, by rw [hr], ?_⟩
  simp only [dominant_weather, ht, hr]
  norm_num
  decide

/-- C1 amended: for every selection the dominant-weather label is computed
by exactly the spec's rules, evaluated in order with first match winning,
except that the three returned labels carry the script's emoji prefixes. -/
theorem dominant_weather_follows_amended_rules (sel : List Row) :
    dominant_weather sel =
      specDominantLabelAmended (total_rain sel) (rainy_days sel) (avg_max_temp sel) := rfl

/-!
Claim C2: the rain-intensity rules, labels and boundary cases.
-/

/-- C2: for every selection the rain-intensity label follows the spec's
first-match rules with inclusive upper bounds and exactly the spec's label
strings; the thresholds are boundary-exact at 50.00, 50.01, 150.00 and
150.01 millimeters, witnessed on concrete one-day selections. -/
theorem rain_intensity_rules_and_boundaries :
    (∀ sel : List Row, rain_intensity sel = specRainIntensity (total_rain sel)) ∧
    rain_intensity (selWithRain 50) = "Light Rain" ∧
    rain_intensity (selWithRain (5001 / 100)) = "Moderate Rain" ∧
    rain_intensity (selWithRain 150) = "Moderate Rain" ∧
    rain_intensity (selWithRain (15001 / 100)) = "Heavy Rain" := by
  have hgen : ∀ sel : List Row, rain_intensity sel = specRainIntensity (total_rain sel) :=
    fun _ => rfl
  refine ⟨hgen, ?_, ?_, ?_, ?_⟩ <;>
    rw [hgen, total_rain_selWithRain] <;> norm_num [specRainIntensity]

/-!
Claim C7: zero total rain forces the labels.
-/

/-- C7: whenever `total_rain` is zero the computed rain intensity is
"No Rain" and the dominant weather is not the rain-dominant label (the
script's label carries the emoji prefix). -/
theorem no_rain_implies_labels (sel : List Row) (h : total_rain sel = 0) :
    rain_intensity sel = "No Rain" ∧ dominant_weather sel ≠ "🌧️ Rain Dominant" := by
  constructor
  · simp [rain_intensity, h]
  · simp only [dominant_weather, h]
    norm_num
    split <;> decide

/-- C7 witness: the zero-rain one-day selection. -/
theorem no_rain_implies_labels_witness :
    rain_intensity (selWithRain 0) = "No Rain" ∧
      dominant_weather (selWithRain 0) ≠ "🌧️ Rain Dominant" :=
  no_rain_implies_labels (selWithRain 0) (total_rain_selWithRain 0)

/-!
Claim C3: an empty selection stops with a warning and computes nothing.
-/

/-- C3: when no record matches the chosen year and month, the computation
reports the no-data outcome and produces no summary at all (in particular
no zero-filled one). -/
theorem empty_selection_reports_no_data (df : List Row) (y m : Nat)
    (h : ∀ r ∈ df, ¬(r.year = some y ∧ r.month = some m)) :
    analyzeMonth df y m = MonthResult.noData ∧
      ∀ s : Summary, analyzeMonth df y m ≠ MonthResult.ok s := by
  have hf : filterMonth y m df = [] := by
    rw [filterMonth, List.filter_eq_nil]
    intro r hr
    simp only [Bool.and_eq_true, decide_eq_true_eq]
    exact h r hr
  refine ⟨by simp [analyzeMonth, hf], fun s => by simp [analyzeMonth, hf]⟩

/-- C3 witness: a one-record January 2020 dataset queried for January
2021. -/
theorem empty_selection_reports_no_data_witness :
    analyzeMonth (addYearMonth (loadedFrame [mkRainRec janDate (some 5)])) 2021 1 =
        MonthResult.noData ∧
      ∀ s : Summary,
        analyzeMonth (addYearMonth (loadedFrame [mkRainRec janDate (some 5)])) 2021 1 ≠
          MonthResult.ok s :=
  empty_selection_reports_no_data _ 2021 1 (by decide)

/-!
Claim C4: the four aggregates agree with the spec formulas.
-/

theorem colMean_eq_specMean (vs : List (Option ℚ)) : colMean vs = specMean vs := by
  unfold colMean specMean
  by_cases h : vs.filterMap id = []
  · simp [h]
  · have hlen : (vs.filterMap id).length ≠ 0 := by
      simpa [List.length_eq_zero] using h
    simp [h, hlen]

/-- C4: for every selection, `total_rain` is the sum of the rain field,
`rainy_days` the count of records with positive rain, and the two averages
are the arithmetic means of the non-null `temp_mean` and `temp_max`
values. -/
theorem aggregates_match_spec (sel : List Row) :
    total_rain sel = specTotalRain sel ∧
    rainy_days sel = specRainyDays sel ∧
    avg_temp sel = specMean (sel.map (fun r => r.daily.temp_mean)) ∧
    avg_max_temp sel = specMean (sel.map (fun r => r.daily.temp_max)) :=
  ⟨colSum_eq_sum _, List.countP_eq_length_filter _ _,
    colMean_eq_specMean _, colMean_eq_specMean _⟩

/-!
Claim C6: rainy days plus dry days versus the number of records.
-/

theorem rainy_days_cons (r : Row) (sel : List Row) :
    rainy_days (r :: sel) = rainy_days sel + (if gtZero r.daily.rain then 1 else 0) := by
  simp [rainy_days, List.countP_cons]

theorem dry_cons (r : Row) (sel : List Row) :
    dry (r :: sel) = dry sel + (if eqZero r.daily.rain then 1 else 0) := by
  simp [dry, List.countP_cons]

/-- C6 counterexample: a non-empty monthly selection containing a record
whose rain value is missing; pandas counts it neither rainy (`NaN > 0` is
false) nor dry (`NaN == 0` is false), so the two counts no longer add up
to the number of records. -/
theorem rainy_plus_dry_counterexample :
    nullRainSel ≠ [] ∧ rainy_days nullRainSel + dry nullRainSel ≠ nullRainSel.length := by
  decide

/-- C6 amended: provided every record of the selection carries a present,
nonnegative rain value (the data model allows nulls, which break the
identity), the rainy-day count plus the dry-day count equals the number of
records. -/
theorem rainy_plus_dry_eq_length_of_nonnull (sel : List Row)
    (h : ∀ r ∈ sel, presentNonneg r.daily.rain = true) :
    rainy_days sel + dry sel = sel.length := by
  induction sel with
  | nil => rfl
  | cons r sel ih =>
    have hr := h r (List.mem_cons_self r sel)
    have ht := ih (fun u hu => h u (List.mem_cons_of_mem _ hu))
    cases hrain : r.daily.rain with
    | none => rw [hrain] at hr; simp [presentNonneg] at hr
    | some x =>
      rw [hrain] at hr
      simp only [presentNonneg, decide_eq_true_eq] at hr
      rw [rainy_days_cons, dry_cons, hrain]
      rcases eq_or_lt_of_le hr with hx | hx
      · have h1 : gtZero (some x) = false := by
          simp only [gtZero, decide_eq_false_iff_not, not_lt]
          exact le_of_eq hx.symm
        have h2 : eqZero (some x) = true := by
          simp only [eqZero, decide_eq_true_eq]
          exact hx.symm
        rw [h1, h2]
        simp only [if_false, if_true, List.length_cons, Bool.false_eq_true]
        omega
      · have h1 : gtZero (some x) = true := by
          simp only [gtZero, decide_eq_true_eq]; exact hx
        have h2 : eqZero (some x) = false := by
          simp only [eqZero, decide_eq_false_iff_not]
          exact ne_of_gt hx
        rw [h1, h2]
        simp only [if_false, if_true, List.length_cons, Bool.false_eq_true]
        omega

/-- C6 amended witness: three rainy days, no missing values. -/
theorem rainy_plus_dry_eq_length_of_nonnull_witness :
    rainy_days rainySel + dry rainySel = rainySel.length :=
  rainy_plus_dry_eq_length_of_nonnull rainySel (by decide)

/-!
Claim C9: the classifier is total and safe on all-null temperature data.
-/

/-- C9: the dominant-weather classifier always returns one of its three
labels; an all-null `temp_max` column makes the average `NaN` (`none`); and
with no rainy day and a `NaN` average max temperature the `>= 32`
comparison fails, so the result is the mixed label, never heat. -/
theorem dominant_weather_total_and_null_safe (sel : List Row) :
    (dominant_weather sel = "🌧️ Rain Dominant" ∨ dominant_weather sel = "☀️ Heat Dominant" ∨
      dominant_weather sel = "🌤️ Mixed Weather") ∧
    ((∀ r ∈ sel, r.daily.temp_max = none) → avg_max_temp sel = none) ∧
    (rainy_days sel = 0 → avg_max_temp sel = none →
      dominant_weather sel = "🌤️ Mixed Weather") := by
  refine ⟨?_, ?_, ?_⟩
  · by_cases h1 : 0 < total_rain sel ∧ 3 ≤ rainy_days sel
    · exact Or.inl (by simp [dominant_weather, h1])
    · by_cases h2 : rainy_days sel = 0 ∧ geB (avg_max_temp sel) 32 = true
      · exact Or.inr (Or.inl (by simp [dominant_weather, h1, h2]))
      · exact Or.inr (Or.inr (by simp [dominant_weather, h1, h2]))
  · intro hall
    have hnil : (sel.map (fun r => r.daily.temp_max)).filterMap id = [] := by
      rw [List.filterMap_eq_nil]
      intro v hv
      rw [List.mem_map] at hv
      obtain ⟨r, hr, rfl⟩ := hv
      simp [hall r hr]
    simp [avg_max_temp, colMean, hnil]
  · intro h0 hnone
    have htot : total_rain sel ≤ 0 := total_rain_nonpos_of_no_rainy_day sel h0
    have h1 : ¬(0 < total_rain sel ∧ 3 ≤ rainy_days sel) := by
      rintro ⟨hc, -⟩; linarith
    have h2 : ¬(rainy_days sel = 0 ∧ geB (avg_max_temp sel) 32 = true) := by
      rintro ⟨-, hc⟩; rw [hnone] at hc; simp [geB] at hc
    simp [dominant_weather, h1, h2]

/-- C9 witness: a selection whose only record has missing rain and
missing max temperature. -/
theorem dominant_weather_total_and_null_safe_witness :
    dominant_weather nullRainSel = "🌤️ Mixed Weather" :=
  (dominant_weather_total_and_null_safe nullRainSel).2.2 (by decide)
    ((dominant_weather_total_and_null_safe nullRainSel).2.1 (by decide))

/-!
Claim C10: with nonnegative rain data the first rule is driven by
`rainy_days` alone.
-/

/-- C10: when every rain value is null or nonnegative, three or more rainy
days force a positive rain total, so the first dominant-weather rule fires
exactly when `rainy_days >= 3` and its `total_rain > 0` conjunct is
redundant. -/
theorem rainy_days_ge_three_drives_rain_dominant (sel : List Row)
    (h : ∀ r ∈ sel, nullOrNonneg r.daily.rain = true) :
    (3 ≤ rainy_days sel → 0 < total_rain sel) ∧
    (dominant_weather sel = "🌧️ Rain Dominant" ↔ 3 ≤ rainy_days sel) := by
  have hnn : ∀ v ∈ sel.map (fun r => r.daily.rain), 0 ≤ v.getD 0 := by
    intro v hv
    rw [List.mem_map] at hv
    obtain ⟨r, hr, rfl⟩ := hv
    have := h r hr
    cases hrain : r.daily.rain with
    | none => simp
    | some x =>
      rw [hrain] at this
      simp only [nullOrNonneg, decide_eq_true_eq] at this
      simpa [hrain] using this
  have hpos : 3 ≤ rainy_days sel → 0 < total_rain sel := by
    intro h3
    have hcp : 0 < sel.countP (fun r => gtZero r.daily.rain) :=
      lt_of_lt_of_le (by norm_num) h3
    obtain ⟨r, hr, hgt⟩ := List.countP_pos_iff.mp hcp
    cases hrain : r.daily.rain with
    | none => rw [hrain] at hgt; simp [gtZero] at hgt
    | some x =>
      rw [hrain] at hgt
      simp only [gtZero, decide_eq_true_eq] at hgt
      unfold total_rain
      apply colSum_pos _ hnn (r.daily.rain) (List.mem_map_of_mem _ hr)
      simp [hrain]
      exact hgt
  refine ⟨hpos, ?_, ?_⟩
  · intro hdw
    by_contra hlt
    have h1 : ¬(0 < total_rain sel ∧ 3 ≤ rainy_days sel) := fun hc => hlt hc.2
    unfold dominant_weather at hdw
    rw [if_neg h1] at hdw
    split at hdw <;> exact absurd hdw (by decide)
  · intro h3
    unfold dominant_weather
    rw [if_pos ⟨hpos h3, h3⟩]

/-- C10 witness: three rainy days with present nonnegative rain values. -/
theorem rainy_days_ge_three_drives_rain_dominant_witness :
    (3 ≤ rainy_days rainySel → 0 < total_rain rainySel) ∧
      (dominant_weather rainySel = "🌧️ Rain Dominant" ↔ 3 ≤ rainy_days rainySel) :=
  rainy_days_ge_three_drives_rain_dominant rainySel (by decide)

/-!
Claim C8: the loaded collection and the mutation the script performs.
-/

/-- C8 counterexample: the session frame is not the loaded collection: the
script mutates the loaded dataframe right after load by assigning the
derived `year` and `month` columns. -/
theorem frame_mutated_counterexample :
    (runSession [mkRainRec janDate (some 5)] 2020 1).1 ≠
      loadedFrame [mkRainRec janDate (some 5)] := by
  decide

/-- C8 amended: the collection is created once per process and mutated
exactly once, immediately after load, by adding the derived `year` and
`month` columns computed from `date`; the underlying daily records are
never changed, and filtering yields a read-only sub-view (a sublist) of
the frame, which every later step leaves untouched. -/
theorem pipeline_frame_effects (records : List DailyRecord) (y m : Nat) :
    (runSession records y m).1 = addYearMonth (loadedFrame records) ∧
    ((runSession records y m).1).map Row.daily = records ∧
    List.Sublist (filterMonth y m ((runSession records y m).1))
      ((runSession records y m).1) := by
  refine ⟨rfl, ?_, List.filter_sublist _⟩
  show (List.map _ (List.map toRow records)).map Row.daily = records
  induction records with
  | nil => rfl
  | cons r rs ih => simpa [toRow] using ih

/-!
Claim C5: the cache round trip.  First, digit characters.
-/

theorem charToDigit_digitChar (d : Nat) (h : d < 10) :
    charToDigit (Nat.digitChar d) = d := by
  interval_cases d <;> rfl

theorem digitChar_isDigit (d : Nat) (h : d < 10) :
    (Nat.digitChar d).isDigit = true := by
  interval_cases d <;> decide

theorem isDigit_ne_dot (c : Char) (h : c.isDigit = true) : ¬ c = '.' := by
  intro hc
  rw [hc] at h
  exact absurd h (by decide)

theorem digitsFuel_lt (fuel : Nat) : ∀ n, ∀ d ∈ digitsFuel fuel n, d < 10 := by
  induction fuel with
  | zero => intro n d hd; simp [digitsFuel] at hd
  | succ fuel ih =>
    intro n d hd
    cases n with
    | zero => simp [digitsFuel] at hd
    | succ m =>
      rw [digitsFuel] at hd
      rcases List.mem_cons.mp hd with h0 | h0
      · subst h0; exact Nat.mod_lt _ (by norm_num)
      · exact ih _ d h0

theorem digitsVal_append (cs : List Char) (c : Char) :
    digitsVal (cs ++ [c]) = 10 * digitsVal cs + charToDigit c := by
  simp [digitsVal, List.foldl_append]

theorem digitsFuel_val (fuel : Nat) :
    ∀ n, n ≤ fuel →
      digitsVal ((digitsFuel fuel n).reverse.map Nat.digitChar) = n := by
  induction fuel with
  | zero =>
    intro n hn
    have : n = 0 := Nat.le_zero.mp hn
    subst this
    rfl
  | succ fuel ih =>
    intro n hn
    cases n with
    | zero => rfl
    | succ m =>
      have hdiv : (m + 1) / 10 ≤ fuel := by
        have h1 : (m + 1) / 10 < m + 1 := Nat.div_lt_self (Nat.succ_pos m) (by norm_num)
        omega
      rw [digitsFuel]
      rw [List.reverse_cons, List.map_append]
      simp only [List.map_cons, List.map_nil]
      rw [digitsVal_append, ih _ hdiv]
      rw [charToDigit_digitChar _ (Nat.mod_lt _ (by norm_num))]
      omega

theorem digitsRev_val (n : Nat) :
    digitsVal ((digitsRev n).reverse.map Nat.digitChar) = n :=
  digitsFuel_val n n (Nat.le_refl n)

theorem natToChars_ne_nil (n : Nat) : natToChars n ≠ [] := by
  cases n with
  | zero => simp [natToChars]
  | succ m =>
    have h : digitsRev (m + 1) = ((m + 1) % 10) :: digitsFuel m ((m + 1) / 10) := rfl
    simp [natToChars, h]

theorem natToChars_all_digits (n : Nat) :
    ∀ c ∈ natToChars n, c.isDigit = true := by
  intro c hc
  rw [natToChars] at hc
  by_cases h : n = 0
  · rw [if_pos h] at hc
    simp at hc
    subst hc
    decide
  · rw [if_neg h] at hc
    rw [List.mem_map] at hc
    obtain ⟨d, hd, rfl⟩ := hc
    rw [List.mem_reverse] at hd
    exact digitChar_isDigit d (digitsFuel_lt n n d hd)

theorem digitsVal_natToChars (n : Nat) : digitsVal (natToChars n) = n := by
  by_cases h : n = 0
  · subst h; rfl
  · rw [natToChars, if_neg h]
    exact digitsRev_val n

theorem parseNatChars_natToChars (n : Nat) : parseNatChars (natToChars n) = some n := by
  rw [parseNatChars]
  rw [if_neg (by simp [List.isEmpty_iff, natToChars_ne_nil n])]
  rw [if_pos (by rw [List.all_eq_true]; exact natToChars_all_digits n)]
  rw [digitsVal_natToChars]

/-!
Fixed-width numbers and the date round trip.
-/

theorem digitsVal_pad2 (v : Nat) (h : v < 100) : digitsVal (pad2 v) = v := by
  have h1 : v / 10 % 10 = v / 10 := Nat.mod_eq_of_lt (by omega)
  simp only [pad2, digitsVal, List.foldl_cons, List.foldl_nil]
  rw [charToDigit_digitChar _ (Nat.mod_lt _ (by norm_num)),
    charToDigit_digitChar _ (Nat.mod_lt _ (by norm_num))]
  omega

theorem pad2_all_digits (v : Nat) : ∀ c ∈ pad2 v, c.isDigit = true := by
  intro c hc
  rcases List.mem_cons.mp hc with h0 | h0
  · subst h0; exact digitChar_isDigit _ (Nat.mod_lt _ (by norm_num))
  · rcases List.mem_cons.mp h0 with h1 | h1
    · subst h1; exact digitChar_isDigit _ (Nat.mod_lt _ (by norm_num))
    · simp at h1

theorem parseNatChars_pad2 (v : Nat) (h : v < 100) :
    parseNatChars (pad2 v) = some v := by
  rw [parseNatChars]
  rw [if_neg (by simp [pad2, List.isEmpty_iff])]
  rw [if_pos (by rw [List.all_eq_true]; exact pad2_all_digits v)]
  rw [digitsVal_pad2 v h]

theorem val2_pad2 (v : Nat) (h : v < 100) :
    val2 (Nat.digitChar (v / 10 % 10)) (Nat.digitChar (v % 10)) = v := by
  rw [val2, charToDigit_digitChar _ (Nat.mod_lt _ (by norm_num)),
    charToDigit_digitChar _ (Nat.mod_lt _ (by norm_num))]
  omega

theorem val4_pad4 (v : Nat) (h : v < 10000) :
    val4 (Nat.digitChar (v / 1000 % 10)) (Nat.digitChar (v / 100 % 10))
      (Nat.digitChar (v / 10 % 10)) (Nat.digitChar (v % 10)) = v := by
  rw [val4, charToDigit_digitChar _ (Nat.mod_lt _ (by norm_num)),
    charToDigit_digitChar _ (Nat.mod_lt _ (by norm_num)),
    charToDigit_digitChar _ (Nat.mod_lt _ (by norm_num)),
    charToDigit_digitChar _ (Nat.mod_lt _ (by norm_num))]
  omega

theorem parseDate_renderDate (d : Date) (h : goodDate d = true) :
    parseDate (renderDate d) = some d := by
  simp only [goodDate, decide_eq_true_eq] at h
  obtain ⟨hy, hm, hd⟩ := h
  have hstep : parseDate (renderDate d) =
      if ('-' : Char) = '-' ∧ ('-' : Char) = '-' ∧
          ([Nat.digitChar (d.year / 1000 % 10), Nat.digitChar (d.year / 100 % 10),
            Nat.digitChar (d.year / 10 % 10), Nat.digitChar (d.year % 10),
            Nat.digitChar (d.month / 10 % 10), Nat.digitChar (d.month % 10),
            Nat.digitChar (d.day / 10 % 10), Nat.digitChar (d.day % 10)].all
              Char.isDigit) = true
        then some ⟨val4 (Nat.digitChar (d.year / 1000 % 10))
            (Nat.digitChar (d.year / 100 % 10)) (Nat.digitChar (d.year / 10 % 10))
            (Nat.digitChar (d.year % 10)),
          val2 (Nat.digitChar (d.month / 10 % 10)) (Nat.digitChar (d.month % 10)),
          val2 (Nat.digitChar (d.day / 10 % 10)) (Nat.digitChar (d.day % 10))⟩
        else none := rfl
  rw [hstep]
  rw [if_pos]
  · rw [val4_pad4 _ hy, val2_pad2 _ hm, val2_pad2 _ hd]
  · refine ⟨rfl, rfl, ?_⟩
    rw [List.all_eq_true]
    intro c hc
    simp only [List.mem_cons, List.not_mem_nil, or_false] at hc
    rcases hc with h0 | h0 | h0 | h0 | h0 | h0 | h0 | h0 <;>
      (subst h0; exact digitChar_isDigit _ (Nat.mod_lt _ (by norm_num)))

/-!
Splitting a cell at the decimal dot.
-/

theorem takeWhile_append_all {p : Char → Bool} (A : List Char) (x : Char) (B : List Char)
    (hA : ∀ a ∈ A, p a = true) (hx : p x = false) :
    (A ++ x :: B).takeWhile p = A := by
  induction A with
  | nil => simp [List.takeWhile_cons, hx]
  | cons a A ih =>
    have ha := hA a (List.mem_cons_self a A)
    simp [List.takeWhile_cons, ha, ih (fun u hu => hA u (List.mem_cons_of_mem _ hu))]

theorem dropWhile_append_all {p : Char → Bool} (A : List Char) (x : Char) (B : List Char)
    (hA : ∀ a ∈ A, p a = true) (hx : p x = false) :
    (A ++ x :: B).dropWhile p = x :: B := by
  induction A with
  | nil => simp [List.dropWhile_cons, hx]
  | cons a A ih =>
    have ha := hA a (List.mem_cons_self a A)
    simp [List.dropWhile_cons, ha, ih (fun u hu => hA u (List.mem_cons_of_mem _ hu))]

theorem natToChars_ne_dot (a : Nat) :
    ∀ c ∈ natToChars a, (decide ¬(c = '.')) = true := by
  intro c hc
  simp only [decide_eq_true_eq]
  exact isDigit_ne_dot c (natToChars_all_digits a c hc)

theorem dot_ne_dot_false : (decide ¬(('.' : Char) = '.')) = false := by decide

theorem parseUnsignedRat_render (a b : Nat) (hb : b < 100) :
    parseUnsignedRat (natToChars a ++ '.' :: pad2 b) = some ((a : ℚ) + (b : ℚ) / 100) := by
  rw [parseUnsignedRat]
  rw [dropWhile_append_all _ _ _ (natToChars_ne_dot a) dot_ne_dot_false]
  rw [takeWhile_append_all _ _ _ (natToChars_ne_dot a) dot_ne_dot_false]
  show (if ('.' : Char) = '.' ∧ (pad2 b).length = 2 then
      match parseNatChars (natToChars a), parseNatChars (pad2 b) with
      | some a, some b => some ((a : ℚ) + (b : ℚ) / 100)
      | _, _ => none
    else none) = some ((a : ℚ) + (b : ℚ) / 100)
  rw [if_pos ⟨rfl, rfl⟩]
  rw [parseNatChars_natToChars, parseNatChars_pad2 b hb]

/-!
The numeric-cell round trip.
-/

theorem ratToChars_ne_nil (q : ℚ) : ratToChars q ≠ [] := by
  simp only [ratToChars]
  intro hc
  obtain ⟨-, h2⟩ := List.append_eq_nil.mp hc
  exact List.cons_ne_nil _ _ h2

theorem parseRatChars_ratToChars (q : ℚ) (h : twoDecimal q = true) :
    parseRatChars (ratToChars q) = some q := by
  simp only [twoDecimal, decide_eq_true_eq] at h
  set k : Int := (100 * q).num with hk
  have hq100 : ((k : ℚ)) = 100 * q := (Rat.den_eq_one_iff _).mp h
  have hqval : q = (k : ℚ) / 100 := by rw [hq100]; ring
  set n : Nat := k.natAbs with hn
  have hn100 : n % 100 < 100 := Nat.mod_lt _ (by norm_num)
  have hsplit : 100 * (n / 100) + n % 100 = n := Nat.div_add_mod n 100
  have hval : ((n / 100 : Nat) : ℚ) + ((n % 100 : Nat) : ℚ) / 100 = (n : ℚ) / 100 := by
    have hcast := congrArg (fun t : Nat => (t : ℚ)) hsplit
    push_cast at hcast
    field_simp
    linarith
  by_cases hneg : k < 0
  · have hz : k = -(n : Int) := by omega
    have hkq : (k : ℚ) = -(n : ℚ) := by rw [hz]; push_cast; ring
    have hrender : ratToChars q = '-' :: (natToChars (n / 100) ++ '.' :: pad2 (n % 100)) := by
      simp only [ratToChars]
      rw [← hk, ← hn, if_pos hneg, List.singleton_append, List.cons_append]
    rw [hrender]
    simp only [parseRatChars]
    simp only [if_true]
    rw [parseUnsignedRat_render _ _ hn100]
    show some (-(((n / 100 : Nat) : ℚ) + ((n % 100 : Nat) : ℚ) / 100)) = some q
    rw [hval]
    refine congrArg some ?_
    rw [hqval, hkq]
    ring
  · have hz : k = (n : Int) := by omega
    have hkq : (k : ℚ) = (n : ℚ) := by rw [hz]; push_cast; ring
    have hrender : ratToChars q = natToChars (n / 100) ++ '.' :: pad2 (n % 100) := by
      simp only [ratToChars]
      rw [← hk, ← hn, if_neg hneg, List.nil_append]
    obtain ⟨c, rest, hcr⟩ := List.exists_cons_of_ne_nil (natToChars_ne_nil (n / 100))
    have hcdig : c.isDigit = true :=
      natToChars_all_digits _ c (by rw [hcr]; exact List.mem_cons_self _ _)
    have hcne : ¬ c = '-' := by
      intro hc
      rw [hc] at hcdig
      exact absurd hcdig (by decide)
    rw [hrender, hcr, List.cons_append]
    simp only [parseRatChars]
    rw [if_neg hcne]
    rw [← List.cons_append, ← hcr]
    rw [parseUnsignedRat_render _ _ hn100]
    rw [hval]
    refine congrArg some ?_
    rw [hqval, hkq]

theorem parseCell_renderCell (v : Option ℚ) (h : goodCell v = true) :
    parseCell (renderCell v) = some v := by
  cases v with
  | none => rfl
  | some q =>
    simp only [goodCell] at h
    have hne : (⟨ratToChars q⟩ : String) ≠ "" := by
      intro hc
      exact ratToChars_ne_nil q (congrArg String.data hc)
    simp only [renderCell, parseCell]
    rw [if_neg hne]
    show (parseRatChars (ratToChars q)).map some = some (some q)
    rw [parseRatChars_ratToChars q h]
    rfl

theorem parseRecord_renderRecord (r : DailyRecord) (h : goodRecord r = true) :
    parseRecord (renderRecord r) = some r := by
  simp only [goodRecord, Bool.and_eq_true] at h
  obtain ⟨⟨⟨⟨⟨⟨hd, h1⟩, h2⟩, h3⟩, h4⟩, h5⟩, h6⟩ := h
  have hstep : parseRecord (renderRecord r) =
      match parseDate (renderDate r.date), parseCell (renderCell r.temp_max),
          parseCell (renderCell r.temp_min), parseCell (renderCell r.temp_mean),
          parseCell (renderCell r.precipitation), parseCell (renderCell r.rain),
          parseCell (renderCell r.wind_speed_max) with
      | some d, some v1, some v2, some v3, some v4, some v5, some v6 =>
        some ⟨d, v1, v2, v3, v4, v5, v6⟩
      | _, _, _, _, _, _, _ => none := rfl
  rw [hstep, parseDate_renderDate _ hd, parseCell_renderCell _ h1,
    parseCell_renderCell _ h2, parseCell_renderCell _ h3, parseCell_renderCell _ h4,
    parseCell_renderCell _ h5, parseCell_renderCell _ h6]

theorem mapM_parseRecord_renderRecord (rs : List DailyRecord)
    (h : ∀ r ∈ rs, goodRecord r = true) :
    (rs.map renderRecord).mapM parseRecord = some rs := by
  induction rs with
  | nil => rfl
  | cons r rs ih =>
    rw [List.map_cons, List.mapM_cons]
    rw [parseRecord_renderRecord r (h r (List.mem_cons_self _ _))]
    rw [ih (fun u hu => h u (List.mem_cons_of_mem _ hu))]
    rfl

/-- C5: saving a dataset to the cache file and loading it back reproduces
every record exactly: the same number of records, the identical calendar
dates, and the identical numeric values (the hypothesis restricts values
to the two-decimal precision the cache format carries, which is the
precision the contract promises). -/
theorem cache_round_trip (rs : List DailyRecord)
    (h : ∀ r ∈ rs, goodRecord r = true) :
    loadFile (saveFile rs) = some rs := by
  have hstep : loadFile (saveFile rs) =
      if headerRow = headerRow then (rs.map renderRecord).mapM parseRecord else none := rfl
  rw [hstep, if_pos rfl]
  exact mapM_parseRecord_renderRecord rs h

theorem twoDecimal_of_int (q : ℚ) (k : ℤ) (h : 100 * q = (k : ℚ)) :
    twoDecimal q = true := by
  simp [twoDecimal, h]

/-- C5 witness: a two-record dataset with full observations, a missing
value and a negative two-decimal temperature survives the round trip. -/
theorem cache_round_trip_witness : loadFile (saveFile csvSample) = some csvSample := by
  apply cache_round_trip
  have e1 : twoDecimal (253 / 10 : ℚ) = true := twoDecimal_of_int _ 2530 (by norm_num)
  have e2 : twoDecimal (181 / 10 : ℚ) = true := twoDecimal_of_int _ 1810 (by norm_num)
  have e3 : twoDecimal (217 / 10 : ℚ) = true := twoDecimal_of_int _ 2170 (by norm_num)
  have e4 : twoDecimal (0 : ℚ) = true := twoDecimal_of_int _ 0 (by norm_num)
  have e5 : twoDecimal (1234 / 100 : ℚ) = true := twoDecimal_of_int _ 1234 (by norm_num)
  have e6 : twoDecimal (-25 / 100 : ℚ) = true := twoDecimal_of_int _ (-25) (by norm_num)
  have e7 : twoDecimal (3 / 10 : ℚ) = true := twoDecimal_of_int _ 30 (by norm_num)
  intro r hr
  simp only [csvSample, List.mem_cons, List.not_mem_nil, or_false] at hr
  rcases hr with h0 | h0 <;> subst h0 <;>
    simp [goodRecord, goodDate, goodCell, e1, e2, e3, e4, e5, e6, e7]
